import Mathlib

/-!
Shallow embedding of the db1mu NES emulator core, covering the PPU register
file (`PPU.cpp`), the CPU6502 branch helper and opcode dispatch table
(`cpu6502.h`), and the NROM default mapper (`mappers.cpp`).

Machine integers are modelled as `Nat` with explicit truncation:
`c6502_byte_t` is 8-bit, `c6502_word_t` is 16-bit (spec section 3: the PC and
the PPU video-memory address latch are 16-bit).
-/

namespace Db1mu

/-- Truncation to a 16-bit machine word (`c6502_word_t`). -/
def w16 (x : Nat) : Nat := x % 65536

/-- Truncation to an 8-bit machine byte (`c6502_byte_t`). -/
def w8 (x : Nat) : Nat := x % 256

/-- PPU.cpp helper `bit<POS>()`: the constant `1u << POS`. -/
def bit (pos : Nat) : Nat := 1 <<< pos

/-- PPU.cpp helper `test<POS>(v)`: `(v & (1u << POS)) != 0`. -/
def test (pos v : Nat) : Bool := v &&& (1 <<< pos) != 0

namespace PPU

/-- Modelled from the spec: PPU register numbers (the header `PPU.h` is not in
`src/`; the spec register table, section 4.3, numbers the registers 0..7 in
this order). -/
def CONTROL1 : Nat := 0

/-- PPU register 1. -/
def CONTROL2 : Nat := 1

/-- PPU register 2. -/
def STATE : Nat := 2

/-- PPU register 3. -/
def SPRMEM_ADDR : Nat := 3

/-- PPU register 4. -/
def SPRMEM_DATA : Nat := 4

/-- PPU register 5. -/
def SCROLL : Nat := 5

/-- PPU register 6. -/
def VIDMEM_ADDR : Nat := 6

/-- PPU register 7. -/
def VIDMEM_DATA : Nat := 7

/-- The PPU state touched by `PPU::readRegister` / `PPU::writeRegister` /
`PPU::update`, together with the bus memories the PPU reads and writes
(`m_bus.readVideoMem` / `writeVideoMem` / `readSpriteMem` / `writeSpriteMem`
are modelled as plain byte stores; the bus-side address decoding lives in
`bus.cpp`, outside these claims). Field names follow the `m_...` members. -/
structure State where
  activePage : Nat
  addrIncr : Nat
  baSprites : Nat
  baBkgnd : Nat
  bigSprites : Bool
  enableNMI : Bool
  fullBacgroundVisible : Bool
  allSpritesVisible : Bool
  backgroundVisible : Bool
  spritesVisible : Bool
  sprmemAddr : Nat
  vramAddr : Nat
  vramReadError : Bool
  currScrollReg : Nat
  scrollV : Nat
  scrollH : Nat
  vblank : Bool
  sprite0 : Bool
  spritesOnLine : Nat
  enableWrite : Bool
  videoMem : Nat → Nat
  spriteMem : Nat → Nat

/-- `m_bus.readVideoMem(a)`, yielding a byte. -/
def readVideoMem (st : State) (a : Nat) : Nat := w8 (st.videoMem a)

/-- `m_bus.readSpriteMem(i)`, yielding a byte. -/
def readSpriteMem (st : State) (i : Nat) : Nat := w8 (st.spriteMem i)

/-- `PPU::readRegister(n)`: returns the read value and the successor state.
The `STATE` branch assembles the result with `rv |= bit<k>()` over the four
distinct bits 4,5,6,7; since the bits are disjoint, the `|=` chain is a sum.
The default branch of the switch is `assert(false)` and returns 0. -/
def readRegister (st : State) (n : Nat) : Nat × State :=
  if n = STATE then
    let rv :=
      (if !st.enableWrite then bit 4 else 0) +
      (if st.spritesOnLine > 8 then bit 5 else 0) +
      (if st.sprite0 then bit 6 else 0) +
      (if st.vblank then bit 7 else 0)
    (rv, { st with vblank := false })
  else if n = SPRMEM_DATA then
    (readSpriteMem st st.sprmemAddr, { st with sprmemAddr := w8 (st.sprmemAddr + 1) })
  else if n = VIDMEM_DATA then
    let rv := readVideoMem st st.vramAddr
    if !st.vramReadError then
      (rv, { st with vramAddr := w16 (st.vramAddr + st.addrIncr) })
    else
      (rv, { st with vramReadError := false })
  else
    (0, st)

/-- `PPU::writeRegister(n, val)`. The parameter has type `c6502_byte_t`, so
the value is truncated to a byte at entry. In the `VIDMEM_ADDR` branch the
source performs `m_vramAddr <<= 8; m_vramAddr = (m_vramAddr & 0xFF00u) |
(val & 0xFFu);` on the 16-bit latch and then recomputes the read-error flag
`m_vramAddr < 0x3F00u || m_vramAddr >= 0x3F20u` from the new address.
The default branch of the switch is `assert(false)`. -/
def writeRegister (st : State) (n rawVal : Nat) : State :=
  let val := w8 rawVal
  if n = CONTROL1 then
    { st with
      activePage :=
        if val &&& 3 = 0 then 0x2000
        else if val &&& 3 = 1 then 0x2400
        else if val &&& 3 = 2 then 0x2800
        else 0x2C00,
      addrIncr := if test 2 val then 32 else 1,
      baSprites := if test 3 val then 0x1000 else 0,
      baBkgnd := if test 4 val then 0x1000 else 0,
      bigSprites := test 5 val,
      enableNMI := test 7 val }
  else if n = CONTROL2 then
    { st with
      fullBacgroundVisible := test 1 val,
      allSpritesVisible := test 2 val,
      backgroundVisible := test 3 val,
      spritesVisible := test 4 val }
  else if n = SPRMEM_ADDR then
    { st with sprmemAddr := val }
  else if n = SPRMEM_DATA then
    { st with
      spriteMem := fun i => if i = st.sprmemAddr then val else st.spriteMem i,
      sprmemAddr := w8 (st.sprmemAddr + 1) }
  else if n = VIDMEM_ADDR then
    let a := (w16 (st.vramAddr <<< 8) &&& 0xFF00) ||| (val &&& 0xFF)
    { st with
      vramAddr := a,
      vramReadError := decide (a < 0x3F00) || decide (0x3F20 ≤ a) }
  else if n = VIDMEM_DATA then
    { st with
      videoMem := fun i => if i = st.vramAddr then val else st.videoMem i,
      vramAddr := w16 (st.vramAddr + st.addrIncr) }
  else if n = SCROLL then
    let t := st.currScrollReg ^^^ 1
    if t ≠ 0 then { st with currScrollReg := t, scrollV := val }
    else { st with currScrollReg := t, scrollH := val }
  else
    st

/-- One iteration of the sprite loop in `PPU::buildImage`: the loop counter
`ns` runs 0..63, the sprite drawn is `(63u - ns)`, and the body ends with
`m_sprite0 = ns == 0;`. The accumulator carries the current value of
`m_sprite0` and the list of sprite indices drawn so far. -/
def spriteLoopStep (acc : Bool × List Nat) (ns : Nat) : Bool × List Nat :=
  (ns == 0, acc.2 ++ [63 - ns])

/-- The whole sprite loop `for (ns = 0; ns < 64u; ns++)` of
`PPU::buildImage`, starting from `m_sprite0 = false`. -/
def spriteLoop : Bool × List Nat := (List.range 64).foldl spriteLoopStep (false, [])

/-- The order in which `PPU::buildImage` draws the 64 OAM sprites. -/
def spriteIndexOrder : List Nat := spriteLoop.2

/-- `PPU::buildImage`, restricted to the register-visible PPU state: the
background and sprite passes only read memory and emit tiles to the rendering
backend; the only PPU member they assign is `m_sprite0` (`m_sprite0 = false;`
followed, when sprites are visible, by the sprite loop). -/
def buildImage (st : State) : State :=
  { st with sprite0 := if st.spritesVisible then spriteLoop.1 else false }

/-- `PPU::update()`: `m_vblank = false; buildImage(); m_vblank = true;`
(the trailing NMI request goes to the bus and does not change PPU state). -/
def update (st : State) : State :=
  { buildImage { st with vblank := false } with vblank := true }

end PPU

namespace CPU6502

/-- `static constexpr int OPCODE_COUNT = 0xFF;` from `cpu6502.h`. -/
def OPCODE_COUNT : Nat := 0xFF

/-- The element count of `static std::array<OpData, OPCODE_COUNT> s_opHandlers`,
the opcode dispatch table indexed by the fetched opcode byte. -/
def opHandlersSize : Nat := OPCODE_COUNT

/-- CPU state: the `Reg` layout of `cpu6502.h` (`a, x, y, s, p` bytes and the
16-bit `pc`) together with `m_penalty` and the bus-visible memory
(`readMem` / `writeMem` forward to the bus, modelled as a plain byte store). -/
structure State where
  a : Nat
  x : Nat
  y : Nat
  s : Nat
  p : Nat
  pc : Nat
  penalty : Nat
  mem : Nat → Nat

/-- `getFlag<FLG>()` from `cpu6502.h`: `(m_regs.p & (1u << off)) >> off`. -/
def getFlag (p off : Nat) : Nat := (p &&& (1 <<< off)) >>> off

/-- Modelled from the spec: `hi_byte` (`common.h` is not in `src/`) — the high
byte of a 16-bit word. -/
def hi_byte (v : Nat) : Nat := (v >>> 8) &&& 0xFF

/-- `readMem(addr)`: `bus().readMem(addr)`, yielding a byte. -/
def readMem (st : State) (addr : Nat) : Nat := w8 (st.mem addr)

/-- `branchIf<F, IS_SET>()` from `cpu6502.h`. The displacement is fetched with
`fetchOperand<AM::IMM>`; `fetchAddr<AM::IMM>` lives in `cpu6502.cpp`, which is
not in `src/`, and is modelled from the spec (section 4.2: the handler
"fetches any operand bytes and advances PC further"; an immediate operand is
the byte at `PC`). After the fetch `m_regs.pc` points past the displacement,
so `hi_byte(m_regs.pc - 1)` is the high byte of the displacement operand's
address. When the branch is taken the source sets `m_penalty = 1` and
overwrites it with 2 on a page cross, which nets to the single conditional
below; when it is not taken `m_penalty` is left untouched. All 16-bit
program-counter arithmetic wraps modulo 2^16. -/
def branchIf (off : Nat) (isSet : Bool) (st : State) : State :=
  let n : Nat := if isSet then 0 else 1
  let rdis := readMem st st.pc
  let st1 : State := { st with pc := w16 (st.pc + 1) }
  if getFlag st1.p off ^^^ n ≠ 0 then
    let oldPCh := hi_byte ((st1.pc + 65535) % 65536)
    let pc2 :=
      if Nat.testBit rdis 7 then (st1.pc + 65536 - (0x100 - rdis)) % 65536
      else w16 (st1.pc + rdis)
    { st1 with
      pc := pc2,
      penalty := if oldPCh ≠ hi_byte pc2 then 2 else 1 }
  else st1

end CPU6502

namespace DefaultMapper

/-- The exception kinds raised by the mapper (`Exception` in the sources). -/
inductive ExceptionKind where
  | IllegalArgument
  | IllegalOperation
  | SizeOverflow
deriving DecidableEq

/-- Modelled from the spec: `Mapper::ROM_SIZE` (`mappers.h` is not in `src/`);
PRG-ROM banks are 16 KiB (spec section 3). -/
def ROM_SIZE : Nat := 0x4000

/-- `DefaultMapper::readROM(addr)` from `mappers.cpp`, parametrized by the
bank store `banks : bank index → offset → byte` (`m_pROM`) and the bank count
(`m_nROMs`): `$C000`-and-up reads the fixed bank `m_pROM[m_nROMs - 1]`,
`$8000–$BFFF` reads the switchable bank `m_pROM[0]`, anything lower throws
`IllegalArgument`. -/
def readROM (nROMs : Nat) (banks : Nat → Nat → Nat) (addr : Nat) :
    Except ExceptionKind Nat :=
  if 0xC000 ≤ addr then .ok (banks (nROMs - 1) (addr - 0xC000))
  else if 0x8000 ≤ addr then .ok (banks 0 (addr - 0x8000))
  else .error .IllegalArgument

/-- `DefaultMapper::readRAM(addr)`: always throws `IllegalOperation`. -/
def readRAM (_addr : Nat) : Except ExceptionKind Nat := .error .IllegalOperation

/-- `DefaultMapper::writeRAM(addr, val)`: always throws `IllegalOperation`. -/
def writeRAM (_addr _val : Nat) : Except ExceptionKind Unit :=
  .error .IllegalOperation

/-- A single `m_pROM[b].Write(offset, src, count)` call, recorded as
`(bank index, offset into the bank, byte count)`; the source pointer is the
flash payload (or the payload advanced by `space` for the split remainder). -/
abbrev BankWrite := Nat × Nat × Nat

/-- The `addr >= 0xC000` branch of `DefaultMapper::flash`: after
`addr -= 0xC000`, sizes beyond `ROM_SIZE - addr` throw `SizeOverflow`,
otherwise `m_pROM[1].Write(addr, p, size)` writes `size` bytes. -/
def flashFixed (addr size : Nat) : Except ExceptionKind (List BankWrite) :=
  let a := addr - 0xC000
  if size > ROM_SIZE - a then .error .SizeOverflow
  else .ok [(1, a, size)]

/-- `DefaultMapper::flash(addr, p, size)` from `mappers.cpp`, returning the
list of bank writes it performs. In the `$8000` branch the source computes
`space = ROM_SIZE - addr`, recurses with `flash(0xC000, p + space,
size - space)` when `size > space` (that recursive call always lands in the
`addr >= 0xC000` branch, embedded here as `flashFixed`), truncates `size` to
`space`, and then calls `m_pROM[0].Write(addr, p, space)` — with `space`, not
`size`, as the byte count. -/
def flash (addr size : Nat) : Except ExceptionKind (List BankWrite) :=
  if 0xC000 ≤ addr then flashFixed addr size
  else if 0x8000 ≤ addr then
    let a := addr - 0x8000
    let space := ROM_SIZE - a
    if size > space then
      match flashFixed 0xC000 (size - space) with
      | .error e => .error e
      | .ok ws => .ok (ws ++ [(0, a, space)])
    else .ok [(0, a, space)]
  else .error .IllegalArgument

/-- Total number of payload bytes a list of bank writes stores. -/
def writtenBytes (ws : List BankWrite) : Nat := (ws.map fun w => w.2.2).sum

end DefaultMapper

/-- A concrete PPU state used to instantiate the register-file theorems:
power-on-style flags with a nonzero address latch and scroll pair state. -/
def ppu0 : PPU.State where
  activePage := 0x2000
  addrIncr := 1
  baSprites := 0
  baBkgnd := 0
  bigSprites := false
  enableNMI := false
  fullBacgroundVisible := false
  allSpritesVisible := false
  backgroundVisible := false
  spritesVisible := false
  sprmemAddr := 0
  vramAddr := 0x2145
  vramReadError := false
  currScrollReg := 0
  scrollV := 0
  scrollH := 0
  vblank := false
  sprite0 := false
  spritesOnLine := 0
  enableWrite := true
  videoMem := fun _ => 0
  spriteMem := fun _ => 0

/-- `ppu0` mid-way through a VRAM read sequence: the read-delay flag is set,
the latch points at a nametable address, the increment is 1. -/
def ppuDelay : PPU.State := { ppu0 with vramAddr := 0x2000, vramReadError := true }

/-- `ppu0` mid-way through a SCROLL write pair: one SCROLL byte has been
written, so `m_currScrollReg` is 1, with VBlank pending. -/
def ppuScroll : PPU.State := { ppu0 with currScrollReg := 1, vblank := true }

/-- `ppu0` with sprite rendering enabled. -/
def ppuSprites : PPU.State := { ppu0 with spritesVisible := true }

/-- A concrete CPU state: `Z` set (`P = 2`), `PC` at `$80FF` — the address of
the displacement operand of a branch whose opcode byte sat at `$80FE` — and a
zero displacement in memory, so the branch target equals the
instruction-following PC `$8100`. -/
def cpu0 : CPU6502.State where
  a := 0
  x := 0
  y := 0
  s := 0xFD
  p := 2
  pc := 0x80FF
  penalty := 0
  mem := fun _ => 0

/-! ## Helper lemmas about the bit-level arithmetic of the VIDMEM_ADDR latch -/

/-- Masking with `0xFF` is reduction modulo 256. -/
theorem and_ff (v : Nat) : v &&& 0xFF = v % 256 := by
  have h := Nat.and_pow_two_sub_one_eq_mod v 8
  norm_num at h
  exact h

/-- Masking a value whose low byte is clear and whose high part fits in a byte
with `0xFF00` keeps it unchanged. -/
theorem mul256_and_ff00 (k : Nat) (hk : k < 256) : k * 256 &&& 0xFF00 = k * 256 := by
  have h0 : (0xFF00 : Nat) = 2 ^ 8 * 255 := by norm_num
  have h1 : k * 256 = 2 ^ 8 * k := by ring
  apply Nat.eq_of_testBit_eq
  intro i
  rw [Nat.testBit_and, h0, h1, Nat.testBit_mul_pow_two, Nat.testBit_mul_pow_two]
  by_cases h8 : 8 ≤ i
  · by_cases hlt : i - 8 < 8
    · have h255 : Nat.testBit 255 (i - 8) = true := by
        have h2 : (255 : Nat) = 2 ^ 8 - 1 := by norm_num
        rw [h2, Nat.testBit_two_pow_sub_one]
        simpa using hlt
      simp [h8, h255]
    · have hkf : Nat.testBit k (i - 8) = false := by
        apply Nat.testBit_lt_two_pow
        calc k < 2 ^ 8 := hk
          _ ≤ 2 ^ (i - 8) := Nat.pow_le_pow_right (by norm_num) (by omega)
      simp [hkf]
  · simp [h8]

/-- Bitwise or of a value with clear low byte and a byte is their sum. -/
theorem mul256_or_low (k m : Nat) (hm : m < 256) : k * 256 ||| m = k * 256 + m := by
  have h1 : k * 256 = 2 ^ 8 * k := by ring
  have hm' : m < 2 ^ 8 := by simpa using hm
  rw [h1, ← Nat.mul_add_lt_is_or hm' k]

/-- The combined effect of `m_vramAddr <<= 8; m_vramAddr = (m_vramAddr &
0xFF00u) | (val & 0xFFu);` on the 16-bit latch: the previous low byte moves to
the high byte and the written byte becomes the low byte. -/
theorem vidAddrWrite_eq (prev v : Nat) :
    (w16 (prev <<< 8) &&& 0xFF00) ||| (v &&& 0xFF) = prev % 256 * 256 + v % 256 := by
  have hs : w16 (prev <<< 8) = prev % 256 * 256 := by
    rw [Nat.shiftLeft_eq, w16]
    norm_num
    omega
  rw [hs, and_ff, mul256_and_ff00 _ (Nat.mod_lt _ (by norm_num)),
      mul256_or_low _ _ (Nat.mod_lt _ (by norm_num))]

/-- Closed form of a single `VIDMEM_ADDR` register write: the latch becomes
`(prev % 256) * 256 + (val % 256)` and the read-error flag is recomputed from
the new address; nothing else changes. -/
theorem writeRegister_vidmemAddr (st : PPU.State) (v : Nat) :
    PPU.writeRegister st PPU.VIDMEM_ADDR v =
      { st with
        vramAddr := st.vramAddr % 256 * 256 + v % 256,
        vramReadError :=
          decide (st.vramAddr % 256 * 256 + v % 256 < 0x3F00) ||
          decide (0x3F20 ≤ st.vramAddr % 256 * 256 + v % 256) } := by
  have h := vidAddrWrite_eq st.vramAddr (v % 256)
  simp [PPU.writeRegister, PPU.VIDMEM_ADDR, PPU.CONTROL1, PPU.CONTROL2,
        PPU.SPRMEM_ADDR, PPU.SPRMEM_DATA, PPU.SCROLL, w8] at h ⊢
  simp only [h]
  exact ⟨trivial, trivial⟩

/-! ## Claim theorems -/

/-- Claim C1, counterexample: in a state with the read-delay flag set
(`ppuDelay`, latch `$2000`, increment 1), a `VIDMEM_DATA` read does NOT
advance the VRAM address by the configured increment, contrary to the claim
that the address is advanced on every read. -/
theorem C1_vidmem_data_read_cex :
    ¬ ((PPU.readRegister ppuDelay PPU.VIDMEM_DATA).2.vramAddr =
        w16 (ppuDelay.vramAddr + ppuDelay.addrIncr)) := by
  decide

/-- Claim C1 (amended): every `VIDMEM_DATA` read returns the byte fetched from
VRAM at the current latched address (there is no separate read buffer); the
read-delay flag is clear afterwards; when the flag was set the address is left
unchanged (so the next read fetches the same byte — the code's one-read-delay
approximation), and only when it was clear is the address advanced by the
configured increment. -/
theorem C1_vidmem_data_read (st : PPU.State) :
    (PPU.readRegister st PPU.VIDMEM_DATA).1 = PPU.readVideoMem st st.vramAddr ∧
    (PPU.readRegister st PPU.VIDMEM_DATA).2.vramReadError = false ∧
    (PPU.readRegister st PPU.VIDMEM_DATA).2.vramAddr =
      (if st.vramReadError then st.vramAddr else w16 (st.vramAddr + st.addrIncr)) := by
  cases h : st.vramReadError <;>
    simp [PPU.readRegister, PPU.VIDMEM_DATA, PPU.STATE, PPU.SPRMEM_DATA, h]

/-- Claim C2: `PPU::buildImage` does iterate the OAM sprites in reverse order
(63 first, 0 last), but because the loop body ends with `m_sprite0 = ns == 0`
— where `ns` is the ascending loop counter, not the sprite index — the last
iteration (`ns == 63`) stores `false`, so after any `PPU::update` with
sprites visible the sprite-0-hit flag is clear and a `STATE` read returns
bit 6 clear, contradicting the claim that it is left set. -/
theorem C2_sprite0_hit :
    PPU.spriteIndexOrder = (List.range 64).reverse ∧
    ∀ st : PPU.State, st.spritesVisible = true →
      (PPU.update st).sprite0 = false ∧
      Nat.testBit (PPU.readRegister (PPU.update st) PPU.STATE).1 6 = false := by
  refine ⟨by decide, fun st h => ⟨?_, ?_⟩⟩
  · simp [PPU.update, PPU.buildImage, h]
    decide
  · have hs : (PPU.update st).sprite0 = false := by
      simp [PPU.update, PPU.buildImage, h]
      decide
    simp only [PPU.readRegister, PPU.STATE, if_pos]
    by_cases h8 : (PPU.update st).spritesOnLine > 8 <;>
      cases hw : (PPU.update st).enableWrite <;>
        rw [hs] <;> cases hv : (PPU.update st).vblank <;>
          simp [h8, hw, hv, Db1mu.bit] <;> decide

/-- Claim C2, witness: instantiating the sprite-0 theorem at the concrete
state `ppuSprites` (sprites visible). -/
theorem C2_sprite0_hit_witness :
    ppuSprites.spritesVisible = true ∧
    (PPU.update ppuSprites).sprite0 = false ∧
    Nat.testBit (PPU.readRegister (PPU.update ppuSprites) PPU.STATE).1 6 = false :=
  ⟨rfl, (C2_sprite0_hit.2 ppuSprites rfl).1, (C2_sprite0_hit.2 ppuSprites rfl).2⟩

/-- Claim C3, counterexample: in the state `ppuScroll` (one SCROLL byte
already written, so the scroll toggle is 1), reading `STATE` leaves the
toggle at 1, and the next `SCROLL` write therefore lands in `m_scrollH`
(the second write of a pair) instead of being treated as the first write —
the claim that a `STATE` read resets the write toggle fails. -/
theorem C3_state_read_cex :
    (PPU.readRegister ppuScroll PPU.STATE).2.currScrollReg = 1 ∧
    (PPU.writeRegister (PPU.readRegister ppuScroll PPU.STATE).2 PPU.SCROLL 0xAB).scrollH = 0xAB ∧
    (PPU.writeRegister (PPU.readRegister ppuScroll PPU.STATE).2 PPU.SCROLL 0xAB).scrollV ≠ 0xAB := by
  refine ⟨rfl, rfl, ?_⟩
  decide

/-- Claim C3 (amended): every `STATE` read returns the VBlank flag in bit 7
and clears the VBlank flag, but it does not touch the scroll write toggle
(nor the address latch): `m_currScrollReg`, the scroll registers and
`m_vramAddr` are unchanged. -/
theorem C3_state_read (st : PPU.State) :
    Nat.testBit (PPU.readRegister st PPU.STATE).1 7 = st.vblank ∧
    (PPU.readRegister st PPU.STATE).2.vblank = false ∧
    (PPU.readRegister st PPU.STATE).2.currScrollReg = st.currScrollReg ∧
    (PPU.readRegister st PPU.STATE).2.scrollV = st.scrollV ∧
    (PPU.readRegister st PPU.STATE).2.scrollH = st.scrollH ∧
    (PPU.readRegister st PPU.STATE).2.vramAddr = st.vramAddr := by
  refine ⟨?_, by simp [PPU.readRegister, PPU.STATE], by simp [PPU.readRegister, PPU.STATE],
    by simp [PPU.readRegister, PPU.STATE], by simp [PPU.readRegister, PPU.STATE],
    by simp [PPU.readRegister, PPU.STATE]⟩
  simp only [PPU.readRegister, PPU.STATE, if_pos]
  by_cases h8 : st.spritesOnLine > 8 <;>
    cases hw : st.enableWrite <;> cases hs : st.sprite0 <;> cases hv : st.vblank <;>
      simp [h8, Db1mu.bit] <;> decide

/-- Claim C4, counterexample: with the displacement operand at `$80FF` (the
last byte of its page) and displacement 0, the branch target `$8100` equals
the instruction-following PC, so the claim predicts a penalty of 1 — but the
source compares against `hi_byte(m_regs.pc - 1) = $80` and charges 2. -/
theorem C4_branch_penalty_cex :
    (CPU6502.branchIf 1 true cpu0).pc = 0x8100 ∧
    CPU6502.hi_byte (CPU6502.branchIf 1 true cpu0).pc = CPU6502.hi_byte 0x8100 ∧
    ¬ ((CPU6502.branchIf 1 true cpu0).penalty =
        if CPU6502.hi_byte (CPU6502.branchIf 1 true cpu0).pc ≠ CPU6502.hi_byte 0x8100
        then 2 else 1) := by
  refine ⟨rfl, rfl, ?_⟩
  decide

/-- Claim C4 (amended): for every taken branch the penalty is 1, plus one
additional cycle (total 2) exactly when the high byte of the branch target
differs from the high byte of the address of the displacement operand (the
program counter at entry to `branchIf`, i.e. the instruction-following PC
minus one) — not the instruction-following PC itself. -/
theorem C4_branch_penalty (off : Nat) (isSet : Bool) (st : CPU6502.State)
    (hpc : st.pc < 65536)
    (htaken : CPU6502.getFlag st.p off ^^^ (if isSet then 0 else 1) ≠ 0) :
    (CPU6502.branchIf off isSet st).penalty =
      (if CPU6502.hi_byte st.pc ≠ CPU6502.hi_byte (CPU6502.branchIf off isSet st).pc
       then 2 else 1) := by
  have hm : ((w16 (st.pc + 1)) + 65535) % 65536 = st.pc := by
    simp only [w16]
    omega
  simp only [CPU6502.branchIf, if_pos htaken, hm]

/-- Claim C4, witness: the amended penalty statement instantiated at the
concrete taken branch `cpu0` (BEQ with Z set). -/
theorem C4_branch_penalty_witness :
    (CPU6502.branchIf 1 true cpu0).penalty =
      (if CPU6502.hi_byte cpu0.pc ≠ CPU6502.hi_byte (CPU6502.branchIf 1 true cpu0).pc
       then 2 else 1) :=
  C4_branch_penalty 1 true cpu0 (by decide) (by decide)

/-- Claim C5: the opcode dispatch table `s_opHandlers` has `OPCODE_COUNT =
0xFF = 255` entries, so opcodes 0 through 254 are within bounds but the
opcode byte `0xFF` is not — the table does not cover all 256 byte values. -/
theorem C5_opcode_table :
    CPU6502.opHandlersSize = 255 ∧ ¬ (0xFF < CPU6502.opHandlersSize) ∧
    ∀ op, op < 0xFF → op < CPU6502.opHandlersSize := by
  refine ⟨rfl, by decide, fun op h => ?_⟩
  simpa [CPU6502.opHandlersSize, CPU6502.OPCODE_COUNT] using h

/-- Claim C5, witness: a concrete in-bounds opcode below `0xFF`. -/
theorem C5_opcode_table_witness : (7 : Nat) < 0xFF ∧ (7 : Nat) < CPU6502.opHandlersSize :=
  ⟨by decide, C5_opcode_table.2.2 7 (by decide)⟩

/-- Claim C6: a consecutive MSB-then-LSB pair of `VIDMEM_ADDR` writes leaves
the 16-bit latch at exactly `(MSB << 8) | LSB`, for every prior latch
content. -/
theorem C6_vidmem_addr_pair (st : PPU.State) (msb lsb : Nat)
    (hm : msb < 256) (hl : lsb < 256) :
    (PPU.writeRegister (PPU.writeRegister st PPU.VIDMEM_ADDR msb)
        PPU.VIDMEM_ADDR lsb).vramAddr = msb * 256 + lsb := by
  rw [writeRegister_vidmemAddr, writeRegister_vidmemAddr]
  simp only []
  omega

/-- Claim C6, witness: the pair (`$12`, `$34`) written over `ppu0` yields
`$1234`. -/
theorem C6_vidmem_addr_pair_witness :
    (PPU.writeRegister (PPU.writeRegister ppu0 PPU.VIDMEM_ADDR 0x12)
        PPU.VIDMEM_ADDR 0x34).vramAddr = 0x12 * 256 + 0x34 :=
  C6_vidmem_addr_pair ppu0 0x12 0x34 (by decide) (by decide)

/-- Claim C7, counterexample: the write pair (`$3F`, `$20`) produces the
address `$3F20`, which lies in `$3F00–$3FFF` (the palette region of the
claim), yet the read-delay flag IS set — the claim that the flag is clear for
every address in `$3F00–$3FFF` fails. -/
theorem C7_read_delay_flag_cex :
    (0x3F00 ≤ (PPU.writeRegister (PPU.writeRegister ppu0 PPU.VIDMEM_ADDR 0x3F)
        PPU.VIDMEM_ADDR 0x20).vramAddr) ∧
    ((PPU.writeRegister (PPU.writeRegister ppu0 PPU.VIDMEM_ADDR 0x3F)
        PPU.VIDMEM_ADDR 0x20).vramAddr ≤ 0x3FFF) ∧
    (PPU.writeRegister (PPU.writeRegister ppu0 PPU.VIDMEM_ADDR 0x3F)
        PPU.VIDMEM_ADDR 0x20).vramReadError = true := by
  refine ⟨by decide, by decide, rfl⟩

/-- Claim C7 (amended): after a completed `VIDMEM_ADDR` pair producing
address `A`, the read-delay flag is set if and only if `A < $3F00` or
`A ≥ $3F20`: only the 32-byte window `$3F00–$3F1F` suppresses the read
delay; the palette mirrors `$3F20–$3FFF` do not. -/
theorem C7_read_delay_flag (st : PPU.State) (msb lsb : Nat)
    (hm : msb < 256) (hl : lsb < 256) :
    (PPU.writeRegister (PPU.writeRegister st PPU.VIDMEM_ADDR msb)
        PPU.VIDMEM_ADDR lsb).vramReadError =
      (decide (msb * 256 + lsb < 0x3F00) || decide (0x3F20 ≤ msb * 256 + lsb)) := by
  rw [writeRegister_vidmemAddr, writeRegister_vidmemAddr]
  have e : (st.vramAddr % 256 * 256 + msb % 256) % 256 * 256 + lsb % 256
      = msb * 256 + lsb := by
    omega
  simp only [e]

/-- Claim C7, witness: the pair (`$3F`, `$10`) lands in the palette window,
so the read-delay flag is clear. -/
theorem C7_read_delay_flag_witness :
    (PPU.writeRegister (PPU.writeRegister ppu0 PPU.VIDMEM_ADDR 0x3F)
        PPU.VIDMEM_ADDR 0x10).vramReadError =
      (decide (0x3F * 256 + 0x10 < 0x3F00) || decide (0x3F20 ≤ 0x3F * 256 + 0x10)) :=
  C7_read_delay_flag ppu0 0x3F 0x10 (by decide) (by decide)

/-- Claim C8: `flash($8000, p, 1)` performs a single bank-0 write of
`ROM_SIZE = 16384` bytes — not the 1 payload byte the claim requires —
because the `$8000` branch passes `space` instead of `size` to
`m_pROM[0].Write`. -/
theorem C8_flash_space_bug :
    DefaultMapper.flash 0x8000 1 = Except.ok [(0, 0, 16384)] ∧
    DefaultMapper.writtenBytes [(0, 0, 16384)] = 16384 := ⟨rfl, rfl⟩

/-- Claim C9: `DefaultMapper::readROM` throws `IllegalArgument` below
`$8000`, reads the fixed bank `m_pROM[m_nROMs - 1]` for `$C000`-and-up and
the switchable bank `m_pROM[0]` for `$8000–$BFFF`; `readRAM` and `writeRAM`
throw `IllegalOperation` for every address. -/
theorem C9_default_mapper_errors (nROMs : Nat) (banks : Nat → Nat → Nat)
    (addr val : Nat) :
    (addr < 0x8000 →
      DefaultMapper.readROM nROMs banks addr = .error .IllegalArgument) ∧
    (0xC000 ≤ addr →
      DefaultMapper.readROM nROMs banks addr = .ok (banks (nROMs - 1) (addr - 0xC000))) ∧
    (0x8000 ≤ addr → addr < 0xC000 →
      DefaultMapper.readROM nROMs banks addr = .ok (banks 0 (addr - 0x8000))) ∧
    DefaultMapper.readRAM addr = .error .IllegalOperation ∧
    DefaultMapper.writeRAM addr val = .error .IllegalOperation := by
  refine ⟨fun h => ?_, fun h => ?_, fun h1 h2 => ?_, rfl, rfl⟩
  · rw [DefaultMapper.readROM, if_neg (by omega), if_neg (by omega)]
  · rw [DefaultMapper.readROM, if_pos h]
  · rw [DefaultMapper.readROM, if_neg (by omega), if_pos h1]

/-- Claim C9, witness: the three `readROM` regions exercised at concrete
addresses on a two-bank cartridge. -/
theorem C9_default_mapper_errors_witness :
    DefaultMapper.readROM 2 (fun b o => b * 100000 + o) 0x7000 = .error .IllegalArgument ∧
    DefaultMapper.readROM 2 (fun b o => b * 100000 + o) 0xC005 = .ok 100005 ∧
    DefaultMapper.readROM 2 (fun b o => b * 100000 + o) 0x8005 = .ok 5 :=
  ⟨(C9_default_mapper_errors 2 _ 0x7000 0).1 (by decide),
   (C9_default_mapper_errors 2 _ 0xC005 0).2.1 (by decide),
   (C9_default_mapper_errors 2 _ 0x8005 0).2.2.1 (by decide) (by decide)⟩

/-- Claim C10: a single `VIDMEM_ADDR` write of byte `v` sets the latch to
`((previous & $FF) << 8) | v`, independent of any toggle state. -/
theorem C10_vidmem_addr_single (st : PPU.State) (v : Nat) (hv : v < 256) :
    (PPU.writeRegister st PPU.VIDMEM_ADDR v).vramAddr =
      st.vramAddr % 256 * 256 + v := by
  rw [writeRegister_vidmemAddr]
  simp [Nat.mod_eq_of_lt hv]

/-- Claim C10, witness: writing byte 7 over the latch `$2145` of `ppu0`
yields `$4507`. -/
theorem C10_vidmem_addr_single_witness :
    (PPU.writeRegister ppu0 PPU.VIDMEM_ADDR 7).vramAddr =
      ppu0.vramAddr % 256 * 256 + 7 :=
  C10_vidmem_addr_single ppu0 7 (by decide)

end Db1mu
